import Mathlib

/-!
Verification of the PPM (Provider Protocol Machine) and LLDP engine of the
p-net PROFINET stack, as implemented in src/src/common/pf_lldp.c. The C code
is shallowly embedded: byte buffers are lists of naturals (every byte kept
below 256 by construction), C unsigned arithmetic is `Nat` with explicit
`% 2^32` where wraparound matters, `int32_t` arithmetic is `Int` with
explicit truncated division (`Int.tdiv` / `Int.tmod`, matching C), and
collaborator calls (diagnostics, alarms, timers, Ethernet driver) are
modelled as events or environment-supplied success flags.
-/

namespace PNet

/-- 32-bit truncation, as performed by C `uint32_t` arithmetic. -/
def u32 (n : Nat) : Nat := n % 4294967296

/-- 32-bit unsigned subtraction with wraparound. -/
def u32sub (a b : Nat) : Nat := (u32 a + 4294967296 - u32 b) % 4294967296

/-- Big-endian byte pair of a 16-bit value, as written by `pf_put_uint16`
with `big_endian = true`. -/
def be16 (v : Nat) : List Nat := [v % 65536 / 256, v % 256]

/-- Reinterpretation of a `uint32_t` value as `int32_t` (the C conversion
applied when `os_get_current_time_us()*4` is stored into an `int32_t`). -/
def int32OfUInt32 (n : Nat) : Int :=
  if n < 2147483648 then (n : Int) else (n : Int) - 4294967296

/-- `memcpy` of the bytes of `src` into buffer `l` at offset `off`.
Writes beyond the end of `l` are dropped (the C buffers are allocated with
`PF_FRAME_BUFFER_SIZE` capacity; all claims stay within it). -/
def writeBytes : List Nat → Nat → List Nat → List Nat
  | l, _, [] => l
  | l, off, b :: bs => writeBytes (l.set off b) (off + 1) bs

theorem writeBytes_length (src l : List Nat) (off : Nat) :
    (writeBytes l off src).length = l.length := by
  induction src generalizing l off with
  | nil => rfl
  | cons b bs ih => rw [writeBytes, ih, List.length_set]

theorem writeBytes_getElem?_of_lt (src l : List Nat) (off j : Nat) (h : j < off) :
    (writeBytes l off src)[j]? = l[j]? := by
  induction src generalizing l off with
  | nil => rfl
  | cons b bs ih =>
    rw [writeBytes, ih _ _ (by omega), List.getElem?_set_ne (by omega)]

theorem writeBytes_getElem?_inside (src l : List Nat) (off k : Nat)
    (hk : k < src.length) (hfit : off + src.length ≤ l.length) :
    (writeBytes l off src)[off + k]? = src[k]? := by
  induction src generalizing l off k with
  | nil => simp at hk
  | cons b bs ih =>
    cases k with
    | zero =>
      rw [writeBytes, writeBytes_getElem?_of_lt _ _ _ _ (by omega)]
      simp only [Nat.add_zero]
      rw [List.getElem?_set_self (by simp at hfit ⊢; omega)]
      simp
    | succ k =>
      rw [writeBytes]
      have hoff : off + (k + 1) = (off + 1) + k := by omega
      rw [hoff, ih _ _ _ (by simpa using hk) (by simp at hfit ⊢; omega)]
      simp

/-- The cycle-counter computation of `pf_ppm_finish_buffer`:
`cycle_tmp = os_get_current_time_us()*4` is an `int32_t` (the product wraps
as `uint32_t` before the signed store), divided by `125` with C truncated
division; `_ratio = scf*rr` is a `uint16_t` (wraps at `2^16`); the final
value is stored into the 16-bit `cycle` field. -/
def pf_ppm_cycle_value (now scf rr : Nat) : Nat :=
  let cycle0 : Int := int32OfUInt32 ((now * 4) % 4294967296)
  let cycle1 : Int := Int.tdiv cycle0 125
  let ratio : Nat := (scf * rr) % 65536
  let rem : Int := Int.tmod cycle1 (ratio : Int)
  let cycle2 : Int := if cycle1 < (ratio : Int) then (ratio : Int) else cycle1 - rem
  (Int.emod cycle2 65536).toNat

/-- `pf_ppm_calculate_compensated_delay`. `rtos = true` is the
`PNET_OS_RTOS_SUPPORTED` (preemptive) build, `false` the cooperative
scheduler build. All arithmetic is `uint32_t`. -/
def pf_ppm_calculate_compensated_delay (rtos : Bool) (wanted stack : Nat) : Nat :=
  let ticks : Nat := if u32 (stack + stack / 2) < wanted then u32 (wanted + stack / 2) / stack else 1
  if rtos then u32 (ticks * stack) else u32sub (ticks * stack) (stack / 2)

/-! ## PPM data model (pf_ppm_t, pf_iocr_t, pf_ar_t, pnet_t) -/

/-- The PPM states `PF_PPM_STATE_W_START` and `PF_PPM_STATE_RUN`. -/
inductive PfPpmState where
  | wStart
  | run
deriving DecidableEq, Repr

/-- Modelled from the spec: the classified error class values written into
`p_ar->err_cls` (the numeric `PNET_ERROR_CODE_1_*` values live in a header
that is not part of this repository slice). -/
inductive PnetErrCls where
  | noError
  | ppm
deriving DecidableEq, Repr

/-- Modelled from the spec: the classified error code values written into
`p_ar->err_code` (`PNET_ERROR_CODE_2_PPM_INVALID` and
`PNET_ERROR_CODE_2_PPM_INVALID_STATE`). -/
inductive PnetErrCode where
  | noError
  | ppmInvalid
  | ppmInvalidState
deriving DecidableEq, Repr

/-- The per-IOCR PPM record `pf_ppm_t`. Byte buffers are byte lists; the
send buffer models the first `len` bytes of the allocated frame buffer
(the frame handed to `os_eth_send`). `rt_timer_exists` models a non-NULL
`rt_args->rt_timer`; `send_buffer_allocated` a non-freed `p_send_buffer`. -/
structure PfPpm where
  state : PfPpmState := .wStart
  sa : List Nat := [0, 0, 0, 0, 0, 0]
  da : List Nat := [0, 0, 0, 0, 0, 0]
  buffer_pos : Nat := 0
  cycle : Nat := 0
  transfer_status : Nat := 0
  cycle_counter_offset : Nat := 0
  data_status_offset : Nat := 0
  transfer_status_offset : Nat := 0
  buffer_length : Nat := 0
  data_status : Nat := 0
  send_buffer : List Nat := []
  send_buffer_allocated : Bool := false
  buffer_data : List Nat := List.replicate 1522 0
  control_interval : Nat := 0
  compensated_control_interval : Nat := 0
  send_clock_factor : Nat := 0
  reduction_ratio : Nat := 0
  first_transmit : Bool := false
  ci_running : Bool := false
  ci_timer : Nat := 4294967295
  rt_timer_exists : Bool := false
  trx_cnt : Nat := 0
deriving DecidableEq, Repr

/-- The IOCR parameters used by the PPM (`pf_iocr_param_t` fields). -/
structure PfIocrParam where
  c_sdu_length : Nat := 0
  frame_id : Nat := 0
  send_clock_factor : Nat := 0
  reduction_ratio : Nat := 0
  vlan_id : Nat := 0
  iocr_user_priority : Nat := 0
deriving DecidableEq, Repr

/-- The IOCR record `pf_iocr_t` (the slice used by the PPM send path). -/
structure PfIocr where
  param : PfIocrParam := {}
  in_length : Nat := 0
  ppm : PfPpm := {}
deriving DecidableEq, Repr

/-- The AR record `pf_ar_t` (the slice used by the PPM). -/
structure PfAr where
  err_cls : PnetErrCls := .noError
  err_code : PnetErrCode := .noError
  initiator_mac : List Nat := [0, 0, 0, 0, 0, 0]
  responder_mac : List Nat := [0, 0, 0, 0, 0, 0]
  iocrs : List PfIocr := []
deriving DecidableEq, Repr

/-- The process-wide state `pnet_t` (the slice used by the PPM), with one
AR. `ppm_buf_lock` is true while the mutex exists. The field name
`ifOutOctects` keeps the source's spelling. -/
structure PnetSt where
  ppm_instance_cnt : Nat := 0
  ppm_buf_lock : Bool := false
  scheduler_tick_interval : Nat := 1000
  ifOutOctects : Nat := 0
  ifOutErrors : Nat := 0
  ar : PfAr := {}
deriving DecidableEq, Repr

/-- Default IOCR used to model the unchecked C array indexing
`p_ar->iocrs[crep]`; theorems assume the index is in range. -/
def iocrDefault : PfIocr := {}

/-- `pf_ppm_init`: sets the instance counter to 0. -/
def pf_ppm_init (net : PnetSt) : PnetSt :=
  { net with ppm_instance_cnt := 0 }

/-- `pf_ppm_init_buf`: lay out destination MAC, source MAC, VLAN TPID,
VLAN tag word, PROFINET EtherType and frame id over a zeroed buffer of
`buffer_length` bytes. -/
def pf_ppm_init_buf (ppm : PfPpm) (frame_id vlan_id prio : Nat) : List Nat :=
  let payload := List.replicate ppm.buffer_length 0
  let payload := writeBytes payload 0 ppm.da
  let payload := writeBytes payload 6 ppm.sa
  let payload := writeBytes payload 12 (be16 33024)
  let vlanWord := vlan_id % 4096 + prio % 8 * 8192
  let payload := writeBytes payload 14 (be16 vlanWord)
  let payload := writeBytes payload 16 (be16 34962)
  writeBytes payload 18 (be16 (frame_id % 65536))

/-- `pf_ppm_finish_buffer`: copy the staged data into the frame, then patch
cycle counter (big-endian), data status and transfer status. `now` is the
value of `os_get_current_time_us()`. -/
def pf_ppm_finish_buffer (ppm : PfPpm) (now data_length : Nat) : PfPpm :=
  let c := pf_ppm_cycle_value now ppm.send_clock_factor ppm.reduction_ratio
  let payload := writeBytes ppm.send_buffer ppm.buffer_pos (ppm.buffer_data.take data_length)
  let payload := writeBytes payload ppm.cycle_counter_offset (be16 c)
  let payload := writeBytes payload ppm.data_status_offset [ppm.data_status]
  let payload := writeBytes payload ppm.transfer_status_offset [ppm.transfer_status]
  { ppm with cycle := c, send_buffer := payload }

/-- `pf_ppm_activate_req` (the `PNET_OS_RTOS_SUPPORTED` build; the
cooperative build differs only in which timer service it arms, captured by
the same `timerOk` success flag). `timerOk` models `os_timer_create`
returning non-NULL. Returns the C result and the new state. -/
def pf_ppm_activate_req (net : PnetSt) (crep : Nat) (timerOk : Bool) : Int × PnetSt :=
  let cnt := net.ppm_instance_cnt
  let net := { net with
    ppm_instance_cnt := u32 (cnt + 1),
    ppm_buf_lock := if cnt = 0 then true else net.ppm_buf_lock }
  let iocr := net.ar.iocrs.getD crep iocrDefault
  let ppm := iocr.ppm
  if ppm.state = PfPpmState.run then
    (-1, { net with ar := { net.ar with err_cls := .ppm, err_code := .ppmInvalidState } })
  else
    let ppm := { ppm with
      first_transmit := false
      sa := net.ar.responder_mac
      da := net.ar.initiator_mac
      buffer_pos := 2 * 6 + 4 + 2 + 2
      cycle := 0
      transfer_status := 0
      cycle_counter_offset := 2 * 6 + 4 + 2 + 2 + iocr.param.c_sdu_length
      data_status_offset := 2 * 6 + 4 + 2 + 2 + iocr.param.c_sdu_length + 2
      transfer_status_offset := 2 * 6 + 4 + 2 + 2 + iocr.param.c_sdu_length + 2 + 1
      buffer_length := 2 * 6 + 4 + 2 + 2 + iocr.param.c_sdu_length + 2 + 1 + 1
      -- BIT(STATE) + BIT(DATA_VALID) + BIT(STATION_PROBLEM_INDICATOR);
      -- bit positions 0, 2, 5 modelled from the spec's data-status layout
      data_status := 2 ^ 0 + 2 ^ 2 + 2 ^ 5
      send_buffer_allocated := true
      send_clock_factor := iocr.param.send_clock_factor
      reduction_ratio := iocr.param.reduction_ratio }
    let ppm := { ppm with
      send_buffer := pf_ppm_init_buf ppm iocr.param.frame_id
        iocr.param.vlan_id iocr.param.iocr_user_priority }
    let ppm := { ppm with
      control_interval := u32 (iocr.param.send_clock_factor *
        iocr.param.reduction_ratio * 1000) / 32 }
    let ppm := { ppm with
      compensated_control_interval := pf_ppm_calculate_compensated_delay true
        ppm.control_interval net.scheduler_tick_interval }
    let ppm := { ppm with
      state := PfPpmState.run
      ci_running := true
      rt_timer_exists := timerOk }
    if timerOk then
      (0, { net with ar := { net.ar with iocrs := net.ar.iocrs.set crep { iocr with ppm := ppm } } })
    else
      let ppm := { ppm with ci_timer := 4294967295 }
      (-1, { net with ar := { net.ar with
        err_cls := .ppm
        err_code := .ppmInvalid
        iocrs := net.ar.iocrs.set crep { iocr with ppm := ppm } } })

/-- `pf_ppm_close_req`: unconditionally stop (no state check), destroy the
timer, free the send buffer, enter `W_START`, decrement the instance
counter; on the 1 to 0 transition also destroy the mutex and zero the
data status. -/
def pf_ppm_close_req (net : PnetSt) (crep : Nat) : Int × PnetSt :=
  let iocr := net.ar.iocrs.getD crep iocrDefault
  let ppm := { iocr.ppm with ci_running := false }
  let ppm := if ppm.rt_timer_exists then
      { ppm with rt_timer_exists := false, ci_timer := 4294967295 }
    else ppm
  let ppm := { ppm with send_buffer_allocated := false, state := PfPpmState.wStart }
  let cnt := net.ppm_instance_cnt
  let ppm := if cnt = 1 then { ppm with data_status := 0 } else ppm
  (0, { net with
    ppm_instance_cnt := u32 (cnt + 4294967295),
    ppm_buf_lock := if cnt = 1 then false else net.ppm_buf_lock,
    ar := { net.ar with iocrs := net.ar.iocrs.set crep { iocr with ppm := ppm } } })

/-- `pf_ppm_send` (the scheduler/timer callback). `now` is the stack time
read by `pf_ppm_finish_buffer`; `ethOk` models `os_eth_send` returning a
positive byte count. Returns the new state together with the frame handed
to the Ethernet driver, when one was. -/
def pf_ppm_send (net : PnetSt) (crep : Nat) (now : Nat) (ethOk : Bool) :
    PnetSt × Option (List Nat) :=
  let iocr := net.ar.iocrs.getD crep iocrDefault
  let ppm := { iocr.ppm with ci_timer := 4294967295 }
  if ppm.ci_running then
    let ppm := pf_ppm_finish_buffer ppm now iocr.in_length
    let frame := ppm.send_buffer
    if ethOk then
      let net := { net with ifOutOctects := net.ifOutOctects + 1 }
      if ppm.rt_timer_exists then
        let ppm := { ppm with trx_cnt := ppm.trx_cnt + 1, first_transmit := true }
        ({ net with ar := { net.ar with
            iocrs := net.ar.iocrs.set crep { iocr with ppm := ppm } } }, some frame)
      else
        let ppm := { ppm with ci_timer := 4294967295 }
        ({ net with ar := { net.ar with
            err_cls := .ppm
            err_code := .ppmInvalid
            iocrs := net.ar.iocrs.set crep { iocr with ppm := ppm } } }, some frame)
    else
      ({ net with
          ifOutErrors := net.ifOutErrors + 1
          ar := { net.ar with
            iocrs := net.ar.iocrs.set crep { iocr with ppm := ppm } } }, some frame)
  else
    ({ net with ar := { net.ar with
        iocrs := net.ar.iocrs.set crep { iocr with ppm := ppm } } }, none)

/-- `pf_ppm_set_data_status_state`: set or clear bit 0 (STATE/primary) of
the addressed IOCR's data status. `&&& 254` is the `uint8_t` effect of
`&= ~BIT(0)`. -/
def pf_ppm_set_data_status_state (ar : PfAr) (crep : Nat) (primary : Bool) : Int × PfAr :=
  let iocr := ar.iocrs.getD crep iocrDefault
  let ppm := if primary then
      { iocr.ppm with data_status := iocr.ppm.data_status ||| 2 ^ 0 }
    else
      { iocr.ppm with data_status := iocr.ppm.data_status &&& 254 }
  (0, { ar with iocrs := ar.iocrs.set crep { iocr with ppm := ppm } })

/-- `pf_ppm_set_data_status_redundancy`: set or clear bit 1. -/
def pf_ppm_set_data_status_redundancy (ar : PfAr) (crep : Nat) (redundant : Bool) : Int × PfAr :=
  let iocr := ar.iocrs.getD crep iocrDefault
  let ppm := if redundant then
      { iocr.ppm with data_status := iocr.ppm.data_status ||| 2 ^ 1 }
    else
      { iocr.ppm with data_status := iocr.ppm.data_status &&& 253 }
  (0, { ar with iocrs := ar.iocrs.set crep { iocr with ppm := ppm } })

/-- `pf_ppm_set_data_status_provider`: set or clear bit 4. -/
def pf_ppm_set_data_status_provider (ar : PfAr) (crep : Nat) (run : Bool) : Int × PfAr :=
  let iocr := ar.iocrs.getD crep iocrDefault
  let ppm := if run then
      { iocr.ppm with data_status := iocr.ppm.data_status ||| 2 ^ 4 }
    else
      { iocr.ppm with data_status := iocr.ppm.data_status &&& 239 }
  (0, { ar with iocrs := ar.iocrs.set crep { iocr with ppm := ppm } })

/-! ## LLDP data model and frame codec -/

/-- `pf_lldp_tlv_header`: the 16-bit TLV header `(typ << 9) + (len & 0x1ff)`
written big-endian. -/
def pf_lldp_tlv_header (ty ln : Nat) : List Nat :=
  be16 ((ty * 512 + ln % 512) % 65536)

/-- `lldp_add_ttl_tlv`: TLV header of type 3 (TTL) and length 2, then the
configured 16-bit TTL big-endian. -/
def lldp_add_ttl_tlv (ttl : Nat) : List Nat :=
  pf_lldp_tlv_header 3 2 ++ be16 ttl

/-- The LLDP peer record `lldp_peer_cfg` filled in by `pf_lldp_recv`.
The organisation-specific fields are kept as the raw memcpy'd bytes (their
sizes come from the spec's data model); no claim reads them, so the
in-place byte-order fixups the C code applies afterwards are not
re-modelled on top of the raw bytes. -/
structure LldpPeerCfg where
  PeerChassisID : List Nat := []
  PeerChassisIDLen : Nat := 0
  PeerPortID : List Nat := []
  PeerPortIDLen : Nat := 0
  TTL : Nat := 0
  peerTimerExists : Bool := false
  peerTimerUs : Nat := 0
  PeerDelayRaw : List Nat := []
  PeerPortStatusRaw : List Nat := []
  PeerMACAddrRaw : List Nat := []
  PeerMACPhyRaw : List Nat := []
deriving DecidableEq, Repr

/-- Modelled from the spec: the peer timer period is `TTL` seconds
(`TTL*TICK_INTERVAL_SEC`; the constant lives in a header outside this
repository slice), in microseconds. -/
def TICK_INTERVAL_SEC : Nat := 1000000

/-- The process-wide state seen by the LLDP receive path: the peer record,
the temporary and permanent alias names (`cmina_temp_dcp_ase.alias_name`,
`cmina_perm_dcp_ase.alias_name`, NUL-free byte strings), and the `in_use`
flags of the `cmrpc_ar` array. -/
structure LldpNet where
  peer : LldpPeerCfg := {}
  tempAlias : List Nat := []
  permAlias : List Nat := []
  arsInUse : List Bool := []
deriving DecidableEq, Repr

/-- The diagnosis alarm specification bits set by the LLDP alarm paths
(`pf_alarm_spec_t` slice). -/
structure PfAlarmSpec where
  channel_diagnosis : Bool
  submodule_diagnosis : Bool
  ar_diagnosis : Bool
deriving DecidableEq, Repr

/-- The diagnosis item built by `pf_lldp_send_remote_mismatch_alarm`:
`appears` is the `PNET_DIAG_CH_PROP_SPEC` specifier (`APPEARS` when true,
`DISAPPEARS` when false), together with the alarm specification bits. The
constant USI / channel / error-type fields are the same on every path and
are omitted. -/
structure PfDiagItem where
  appears : Bool
  alarm_spec : PfAlarmSpec
deriving DecidableEq, Repr

/-- Calls made to the diagnostics and alarm collaborators, in order. -/
inductive PfLldpAlarmEvent where
  | diagUpdate (arIx : Nat) (item : PfDiagItem)
  | diagAdd (arIx : Nat) (item : PfDiagItem)
  | portChangeNotification (arIx : Nat) (item : PfDiagItem)
deriving DecidableEq, Repr

/-- Whether an event is a `pf_diag_add` call. -/
def PfLldpAlarmEvent.isDiagAdd : PfLldpAlarmEvent → Bool
  | .diagAdd _ _ => true
  | _ => false

/-- The AR index an event refers to. -/
def PfLldpAlarmEvent.arIndex : PfLldpAlarmEvent → Nat
  | .diagUpdate i _ => i
  | .diagAdd i _ => i
  | .portChangeNotification i _ => i

/-- The loop body of `pf_lldp_send_remote_mismatch_alarm` for one in-use
AR: build the diagnosis item from the alias comparison, then — only when
`channel_diagnosis` is set (the mismatch case) — try `pf_diag_update` and
fall back to `pf_diag_add` on failure, otherwise only `pf_diag_update`;
finally send the port change notification. `updOk` models the result of
the `pf_diag_update` call. -/
def pf_lldp_mismatch_events (mismatch updOk : Bool) (ix : Nat) : List PfLldpAlarmEvent :=
  let item : PfDiagItem :=
    if mismatch then ⟨true, ⟨true, true, true⟩⟩ else ⟨false, ⟨false, false, false⟩⟩
  if item.alarm_spec.channel_diagnosis then
    if updOk then
      [.diagUpdate ix item, .portChangeNotification ix item]
    else
      [.diagUpdate ix item, .diagAdd ix item, .portChangeNotification ix item]
  else
    [.diagUpdate ix item, .portChangeNotification ix item]

/-- The `for(ix = 0; ix < maxIndex; ix++)` loop over `cmrpc_ar`,
accumulating collaborator calls for every in-use AR. -/
def pf_lldp_mismatch_loop (mismatch : Bool) (updOk : Nat → Bool) :
    Nat → List Bool → List PfLldpAlarmEvent
  | _, [] => []
  | ix, inUse :: rest =>
    (if inUse then pf_lldp_mismatch_events mismatch (updOk ix) ix else []) ++
      pf_lldp_mismatch_loop mismatch updOk (ix + 1) rest

/-- `pf_lldp_send_remote_mismatch_alarm`: compare the permanent and
temporary alias, emit the per-AR diagnostics/alarm calls, and if no AR was
in use copy the temporary alias over the permanent one. -/
def pf_lldp_send_remote_mismatch_alarm (net : LldpNet) (updOk : Nat → Bool) :
    LldpNet × List PfLldpAlarmEvent :=
  let mismatch : Bool := decide (net.permAlias ≠ net.tempAlias)
  let events := pf_lldp_mismatch_loop mismatch updOk 0 net.arsInUse
  if net.arsInUse.any id then
    (net, events)
  else
    ({ net with permAlias := net.tempAlias }, events)

/-- The body of one iteration of the `pf_lldp_recv` TLV loop. `rest` is the
frame from just after the 2-byte TLV header (`pData`); the TLV payload is
its first `ln` bytes. Strings are NUL-free byte lists, so the C
strncpy/strncat/strchr calls become list operations. Note that the TTL
case reads only the single byte `pData[1]` (the low byte of the 16-bit
big-endian TTL). -/
def lldpHandleTlv (net : LldpNet) (updOk : Nat → Bool) (ty ln : Nat)
    (rest : List Nat) : LldpNet :=
  if ty = 1 then
    -- LLDP_TYPE_CHASSIS_ID: skip the subtype byte, store len-1 bytes
    { net with peer := { net.peer with
        PeerChassisIDLen := ln - 1
        PeerChassisID := (rest.drop 1).take (ln - 1) } }
  else if ty = 2 then
    -- LLDP_TYPE_PORT_ID: store the id, derive the alias, on change store it
    -- and raise the remote-mismatch alarm
    let peer := { net.peer with
      PeerPortIDLen := ln - 1
      PeerPortID := (rest.drop 1).take (ln - 1) }
    let aliasName := if 46 ∈ peer.PeerPortID then peer.PeerPortID
      else peer.PeerPortID ++ 46 :: peer.PeerChassisID
    let net := { net with peer := peer }
    if aliasName ≠ net.tempAlias then
      (pf_lldp_send_remote_mismatch_alarm { net with tempAlias := aliasName } updOk).1
    else net
  else if ty = 3 then
    -- LLDP_TYPE_TTL: TTL = pData[1]; create or re-arm the peer timer
    let ttl := rest.getD 1 0
    { net with peer := { net.peer with
        TTL := ttl
        peerTimerExists := true
        peerTimerUs := ttl * TICK_INTERVAL_SEC } }
  else if ty = 127 then
    -- LLDP_TYPE_ORG_SPEC: dispatch on OUI and subtype
    if rest.take 3 = [0, 14, 207] then
      if rest.getD 3 0 = 1 then
        { net with peer := { net.peer with PeerDelayRaw := (rest.drop 4).take 20 } }
      else if rest.getD 3 0 = 2 then
        { net with peer := { net.peer with PeerPortStatusRaw := (rest.drop 4).take 4 } }
      else if rest.getD 3 0 = 5 then
        { net with peer := { net.peer with PeerMACAddrRaw := (rest.drop 4).take 6 } }
      else net
    else if rest.take 3 = [0, 18, 15] then
      if rest.getD 3 0 = 1 then
        { net with peer := { net.peer with PeerMACPhyRaw := (rest.drop 3).take 5 } }
      else net
    else net
  else net

/-- The TLV walk of `pf_lldp_recv`: read the 16-bit header (type = high 7
bits, length = low 9 bits), stop on the end TLV (type 0), otherwise handle
the TLV and advance by `2 + length` bytes. The fuel argument (instantiated
with the frame length, which bounds the number of TLVs since each consumes
at least two bytes) makes the recursion structural; running out of bytes
stops the walk, as the model's frame ends where the C frame buffer does. -/
def pf_lldp_recv_go (updOk : Nat → Bool) : Nat → LldpNet → List Nat → LldpNet
  | 0, net, _ => net
  | fuel + 1, net, bytes =>
    if bytes.length < 2 then net
    else
      let hdr := 256 * bytes.getD 0 0 + bytes.getD 1 0
      let ty := hdr / 512
      let ln := hdr % 512
      if ty = 0 then net
      else
        pf_lldp_recv_go updOk fuel (lldpHandleTlv net updOk ty ln (bytes.drop 2))
          ((bytes.drop 2).drop ln)

/-- `pf_lldp_recv` applied to the frame bytes following the Ethernet
header. -/
def pf_lldp_recv (net : LldpNet) (updOk : Nat → Bool) (bytes : List Nat) : LldpNet :=
  pf_lldp_recv_go updOk bytes.length net bytes

/-! ## Arithmetic helper lemmas -/

theorem int_tdiv125 (a : Nat) : Int.tdiv (a : Int) 125 = ((a / 125 : Nat) : Int) := rfl

theorem int_tmod_coe (a b : Nat) : Int.tmod (a : Int) (b : Int) = ((a % b : Nat) : Int) := rfl

theorem int_emod65536_toNat (a : Nat) : (Int.emod (a : Int) 65536).toNat = a % 65536 := rfl

/-- Under the realistic no-overflow side conditions (`now*4` fits in
`int32_t`, `scf*rr` a positive `uint16_t`), the cycle computation of
`pf_ppm_finish_buffer` equals the spec's grid-snapping formula reduced
into the 16-bit cycle field. -/
theorem pf_ppm_cycle_value_eq (now scf rr : Nat)
    (ht : now * 4 < 2147483648) (hr0 : 0 < scf * rr) (hr1 : scf * rr < 65536) :
    pf_ppm_cycle_value now scf rr =
      (if now * 4 / 125 < scf * rr then scf * rr
       else now * 4 / 125 - now * 4 / 125 % (scf * rr)) % 65536 := by
  unfold pf_ppm_cycle_value int32OfUInt32
  simp only [Nat.mod_eq_of_lt (show now * 4 < 4294967296 by omega), if_pos ht,
    Nat.mod_eq_of_lt hr1, int_tdiv125, int_tmod_coe]
  by_cases h : now * 4 / 125 < scf * rr
  · rw [if_pos (by exact_mod_cast h), if_pos h, int_emod65536_toNat]
  · rw [if_neg (by exact_mod_cast h), if_neg h]
    rw [← Int.ofNat_sub (Nat.mod_le _ _), int_emod65536_toNat]

/-! ## Claim C1: the cycle counter written on each send -/

/-- Claim C1: on every send in RUN state, the 16-bit cycle counter stored
into the `cycle` field and written big-endian at `cycle_counter_offset` is
computed from the stack time `t` as `raw = t*4/125`,
`ratio = send_clock_factor * reduction_ratio`, and equals `ratio` when
`raw < ratio`, else `raw - raw % ratio` (reduced into the 16-bit field).
The offset hypotheses are the equations `pf_ppm_activate_req` establishes;
the arithmetic hypotheses keep `t*4` inside `int32_t` and `ratio` a
positive `uint16_t`, as the claim's algorithm presumes. -/
theorem ppm_send_cycle_counter (ppm : PfPpm) (now dlen : Nat)
    (ht : now * 4 < 2147483648)
    (hr0 : 0 < ppm.send_clock_factor * ppm.reduction_ratio)
    (hr1 : ppm.send_clock_factor * ppm.reduction_ratio < 65536)
    (hds : ppm.data_status_offset = ppm.cycle_counter_offset + 2)
    (hts : ppm.transfer_status_offset = ppm.cycle_counter_offset + 3)
    (hlen : ppm.cycle_counter_offset + 2 ≤ ppm.send_buffer.length) :
    (pf_ppm_finish_buffer ppm now dlen).cycle =
      (if now * 4 / 125 < ppm.send_clock_factor * ppm.reduction_ratio then
        ppm.send_clock_factor * ppm.reduction_ratio
       else now * 4 / 125 -
        now * 4 / 125 % (ppm.send_clock_factor * ppm.reduction_ratio)) % 65536 ∧
    (pf_ppm_finish_buffer ppm now dlen).send_buffer[ppm.cycle_counter_offset]? =
      some ((pf_ppm_finish_buffer ppm now dlen).cycle / 256) ∧
    (pf_ppm_finish_buffer ppm now dlen).send_buffer[ppm.cycle_counter_offset + 1]? =
      some ((pf_ppm_finish_buffer ppm now dlen).cycle % 256) := by
  have hc := pf_ppm_cycle_value_eq now ppm.send_clock_factor ppm.reduction_ratio ht hr0 hr1
  have hlt : pf_ppm_cycle_value now ppm.send_clock_factor ppm.reduction_ratio < 65536 := by
    rw [hc]; exact Nat.mod_lt _ (by omega)
  unfold pf_ppm_finish_buffer
  refine ⟨hc, ?_, ?_⟩
  · rw [hds, hts]
    rw [writeBytes_getElem?_of_lt _ _ _ _ (by omega),
      writeBytes_getElem?_of_lt _ _ _ _ (by omega)]
    have h0 := writeBytes_getElem?_inside
      (be16 (pf_ppm_cycle_value now ppm.send_clock_factor ppm.reduction_ratio))
      (writeBytes ppm.send_buffer ppm.buffer_pos (ppm.buffer_data.take dlen))
      ppm.cycle_counter_offset 0 (by simp [be16])
      (by rw [writeBytes_length]; simp [be16]; omega)
    simpa [be16, Nat.mod_eq_of_lt hlt] using h0
  · rw [hds, hts]
    rw [writeBytes_getElem?_of_lt _ _ _ _ (by omega),
      writeBytes_getElem?_of_lt _ _ _ _ (by omega)]
    have h1 := writeBytes_getElem?_inside
      (be16 (pf_ppm_cycle_value now ppm.send_clock_factor ppm.reduction_ratio))
      (writeBytes ppm.send_buffer ppm.buffer_pos (ppm.buffer_data.take dlen))
      ppm.cycle_counter_offset 1 (by simp [be16])
      (by rw [writeBytes_length]; simp [be16]; omega)
    simpa [be16, Nat.mod_eq_of_lt hlt] using h1

/-- Claim C1 as universally stated is false: at stack time
`t = 536870912` us (about 9 minutes), `t*4 = 2^31` overflows the
`int32_t` holding `os_get_current_time_us()*4`, the negative product
compares below `_ratio`, and the code snaps the cycle counter to
`ratio = 32` — while the claim's formula `raw - raw % ratio`
(`raw = t*4/125 = 17179869`) gives `17179856` (`9424` in the 16-bit
field), not `32`. -/
theorem ppm_cycle_counter_counterexample :
    (pf_ppm_finish_buffer
      { send_clock_factor := 32, reduction_ratio := 1, buffer_pos := 20,
        cycle_counter_offset := 24, data_status_offset := 26,
        transfer_status_offset := 27, buffer_length := 28,
        send_buffer := List.replicate 28 0, buffer_data := List.replicate 4 7 }
      536870912 4).cycle = 32 ∧
    ¬ (536870912 * 4 / 125 < 32 * 1) ∧
    536870912 * 4 / 125 - 536870912 * 4 / 125 % (32 * 1) ≠ 32 ∧
    (536870912 * 4 / 125 - 536870912 * 4 / 125 % (32 * 1)) % 65536 ≠ 32 := by
  decide

/-- A concrete PPM state (offsets as established by activation with
`c_sdu_length = 4`) used to witness `ppm_send_cycle_counter`. -/
def ppmC1 : PfPpm :=
  { send_clock_factor := 32, reduction_ratio := 1, buffer_pos := 20,
    cycle_counter_offset := 24, data_status_offset := 26,
    transfer_status_offset := 27, buffer_length := 28,
    send_buffer := List.replicate 28 0, buffer_data := List.replicate 4 7 }

/-- Witness for C1 at stack time 5000 us: `raw = 160`, `ratio = 32`,
so the stored cycle is `160` with bytes `0, 160`. -/
theorem ppm_send_cycle_counter_witness :
    (pf_ppm_finish_buffer ppmC1 5000 4).cycle =
      (if 5000 * 4 / 125 < ppmC1.send_clock_factor * ppmC1.reduction_ratio then
        ppmC1.send_clock_factor * ppmC1.reduction_ratio
       else 5000 * 4 / 125 -
        5000 * 4 / 125 % (ppmC1.send_clock_factor * ppmC1.reduction_ratio)) % 65536 ∧
    (pf_ppm_finish_buffer ppmC1 5000 4).send_buffer[ppmC1.cycle_counter_offset]? =
      some ((pf_ppm_finish_buffer ppmC1 5000 4).cycle / 256) ∧
    (pf_ppm_finish_buffer ppmC1 5000 4).send_buffer[ppmC1.cycle_counter_offset + 1]? =
      some ((pf_ppm_finish_buffer ppmC1 5000 4).cycle % 256) :=
  ppm_send_cycle_counter ppmC1 5000 4 (by decide) (by decide) (by decide)
    (by decide) (by decide) (by decide)

/-! ## Claim C3: the compensated scheduler delay -/

/-- Claim C3 as stated is false: on the cooperative path with
`wanted_delay = 0` and `stack_cycle_time = 1000` the function returns
`500`, which is smaller than one stack cycle time. -/
theorem compensated_delay_counterexample :
    pf_ppm_calculate_compensated_delay false 0 1000 = 500 ∧
      ¬ 1000 ≤ pf_ppm_calculate_compensated_delay false 0 1000 := by
  constructor
  · rfl
  · decide

/-- Under no-overflow side conditions, both build variants of the
compensated delay compute `ticks * stack` resp. `ticks * stack - stack/2`
with `ticks = (wanted + stack/2) / stack` when `wanted > stack + stack/2`
and `ticks = 1` otherwise. -/
theorem compensated_delay_ticks (wanted stack : Nat)
    (hs : 0 < stack) (hso : stack + stack / 2 < 4294967296)
    (hov : wanted + stack / 2 < 4294967296) :
    pf_ppm_calculate_compensated_delay true wanted stack =
      (if stack + stack / 2 < wanted then (wanted + stack / 2) / stack else 1) * stack ∧
    pf_ppm_calculate_compensated_delay false wanted stack =
      (if stack + stack / 2 < wanted then (wanted + stack / 2) / stack else 1) * stack
        - stack / 2 := by
  have hhalf : stack / 2 < 4294967296 := by omega
  unfold pf_ppm_calculate_compensated_delay
  rw [show u32 (stack + stack / 2) = stack + stack / 2 from Nat.mod_eq_of_lt hso,
    show u32 (wanted + stack / 2) = wanted + stack / 2 from Nat.mod_eq_of_lt hov]
  simp only [if_true, Bool.false_eq_true, if_false]
  set t := if stack + stack / 2 < wanted then (wanted + stack / 2) / stack else 1 with hdef
  have ht1 : 1 ≤ t := by
    rw [hdef]; split
    · exact Nat.div_pos (by omega) hs
    · exact Nat.le_refl 1
  have htlt : t * stack < 4294967296 := by
    rw [hdef]; split
    · have := Nat.div_mul_le_self (wanted + stack / 2) stack
      omega
    · omega
  have hsle : stack ≤ t * stack := Nat.le_mul_of_pos_left stack ht1
  constructor
  · exact Nat.mod_eq_of_lt htlt
  · unfold u32sub u32
    rw [Nat.mod_eq_of_lt htlt, Nat.mod_eq_of_lt hhalf]
    have hsplit : t * stack + 4294967296 - stack / 2 =
        (t * stack - stack / 2) + 4294967296 := by omega
    rw [hsplit, Nat.add_mod_right, Nat.mod_eq_of_lt (by omega)]

/-- Claim C3 amended: the preemptive-path delay is at least one stack
cycle, the cooperative-path delay at least `stack - stack/2` (half a cycle,
rounded up); when `wanted ≤ 1.5 * stack` the delay corresponds to exactly
one tick, and otherwise to `ticks = (wanted + stack/2) / stack` ticks,
with the cooperative path half a cycle shorter. -/
theorem compensated_delay_amended (wanted stack : Nat)
    (hs : 0 < stack) (hso : stack + stack / 2 < 4294967296)
    (hov : wanted + stack / 2 < 4294967296) :
    stack ≤ pf_ppm_calculate_compensated_delay true wanted stack ∧
    stack - stack / 2 ≤ pf_ppm_calculate_compensated_delay false wanted stack ∧
    (2 * wanted ≤ 3 * stack →
      pf_ppm_calculate_compensated_delay true wanted stack = stack ∧
      pf_ppm_calculate_compensated_delay false wanted stack = stack - stack / 2) ∧
    (stack + stack / 2 < wanted →
      pf_ppm_calculate_compensated_delay true wanted stack =
        (wanted + stack / 2) / stack * stack ∧
      pf_ppm_calculate_compensated_delay false wanted stack =
        (wanted + stack / 2) / stack * stack - stack / 2) := by
  obtain ⟨h1, h2⟩ := compensated_delay_ticks wanted stack hs hso hov
  by_cases hc : stack + stack / 2 < wanted
  · rw [if_pos hc] at h1 h2
    have ht1 : 0 < (wanted + stack / 2) / stack := Nat.div_pos (by omega) hs
    have hsle : stack ≤ (wanted + stack / 2) / stack * stack :=
      Nat.le_mul_of_pos_left stack ht1
    exact ⟨by omega, by omega, fun habs => by omega, fun _ => ⟨h1, h2⟩⟩
  · rw [if_neg hc, Nat.one_mul] at h1 h2
    exact ⟨by omega, by omega, fun _ => ⟨h1, h2⟩, fun habs => absurd habs hc⟩

/-- Witness for the amended C3 at `wanted = 1000`, `stack = 1000`:
both implications' antecedent status is concrete. -/
theorem compensated_delay_amended_witness :
    1000 ≤ pf_ppm_calculate_compensated_delay true 1000 1000 ∧
    1000 - 1000 / 2 ≤ pf_ppm_calculate_compensated_delay false 1000 1000 ∧
    (2 * 1000 ≤ 3 * 1000 →
      pf_ppm_calculate_compensated_delay true 1000 1000 = 1000 ∧
      pf_ppm_calculate_compensated_delay false 1000 1000 = 1000 - 1000 / 2) ∧
    (1000 + 1000 / 2 < 1000 →
      pf_ppm_calculate_compensated_delay true 1000 1000 =
        (1000 + 1000 / 2) / 1000 * 1000 ∧
      pf_ppm_calculate_compensated_delay false 1000 1000 =
        (1000 + 1000 / 2) / 1000 * 1000 - 1000 / 2) :=
  compensated_delay_amended 1000 1000 (by decide) (by decide) (by decide)

/-! ## Claim C2: the concrete first frame of spec scenario 1 -/

/-- The IOCR of spec scenario 1: `scf = 32`, `rr = 1`, `c_sdu_length = 40`,
VID 0, priority 6, frame id `0x8001`, 40 staged (zero) payload bytes. -/
def iocrC2 : PfIocr where
  param :=
    { c_sdu_length := 40
      frame_id := 32769
      send_clock_factor := 32
      reduction_ratio := 1
      vlan_id := 0
      iocr_user_priority := 6 }
  in_length := 40
  ppm := { buffer_data := List.replicate 40 0 }

/-- The initial state of spec scenario 1: initiator MAC
`AA:BB:CC:DD:EE:01`, responder MAC `11:22:33:44:55:66`. -/
def netC2 : PnetSt :=
  pf_ppm_init
    { ar :=
        { initiator_mac := [170, 187, 204, 221, 238, 1]
          responder_mac := [17, 34, 51, 68, 85, 102]
          iocrs := [iocrC2] } }

/-- The frame captured at the first timer tick after activation, at
simulated time 0. -/
def frameC2 : List Nat :=
  ((pf_ppm_send (pf_ppm_activate_req netC2 0 true).2 0 0 true).2).getD []

/-- Claim C2 as stated is false at its own concrete input: the data-status
byte at offset 62 of the first frame is `0x25` (bits 0, 2, 5: STATE,
DATA_VALID, STATION_PROBLEM_INDICATOR), not `0x35` (which would also
include bit 4, PROVIDER_STATE). -/
theorem ppm_first_frame_counterexample :
    frameC2[62]? = some 37 ∧ ¬ frameC2[62]? = some 53 := by decide

/-- Claim C2 amended: the first frame of scenario 1 has length 64,
destination then source MAC, VLAN TPID `0x8100`, tag word `0xC000`,
EtherType `0x8892`, frame id `0x8001`, cycle counter 32 big-endian at
offset 60, data status `0x25` at offset 62 and transfer status 0 at
offset 63. -/
theorem ppm_first_frame_amended :
    frameC2.length = 64 ∧
    frameC2.take 6 = [170, 187, 204, 221, 238, 1] ∧
    (frameC2.drop 6).take 6 = [17, 34, 51, 68, 85, 102] ∧
    frameC2[12]? = some 129 ∧ frameC2[13]? = some 0 ∧
    frameC2[14]? = some 192 ∧ frameC2[15]? = some 0 ∧
    frameC2[16]? = some 136 ∧ frameC2[17]? = some 146 ∧
    frameC2[18]? = some 128 ∧ frameC2[19]? = some 1 ∧
    frameC2[60]? = some 0 ∧ frameC2[61]? = some 32 ∧
    frameC2[62]? = some 37 ∧ frameC2[63]? = some 0 := by decide

/-! ## Claim C5: double activation is rejected without side effects -/

/-- Claim C5: calling `pf_ppm_activate_req` on an instance already in RUN
returns failure, writes `err_cls = PPM` and `err_code = INVALID_STATE`
into the AR, and leaves every IOCR — send buffer, staging buffer, offsets
and state — unchanged. -/
theorem ppm_activate_in_run (net : PnetSt) (crep : Nat) (timerOk : Bool)
    (h : (net.ar.iocrs.getD crep iocrDefault).ppm.state = PfPpmState.run) :
    (pf_ppm_activate_req net crep timerOk).1 = -1 ∧
    (pf_ppm_activate_req net crep timerOk).2.ar.err_cls = PnetErrCls.ppm ∧
    (pf_ppm_activate_req net crep timerOk).2.ar.err_code = PnetErrCode.ppmInvalidState ∧
    (pf_ppm_activate_req net crep timerOk).2.ar.iocrs = net.ar.iocrs := by
  rw [List.getD_eq_getElem?_getD] at h
  simp [pf_ppm_activate_req, h]

/-- A state whose only IOCR is already in RUN. -/
def netC5 : PnetSt :=
  { ppm_instance_cnt := 1, ppm_buf_lock := true,
    ar := { iocrs := [{ ppm := { state := .run, ci_running := true } }] } }

/-- Witness for C5 on `netC5`. -/
theorem ppm_activate_in_run_witness :
    (pf_ppm_activate_req netC5 0 true).1 = -1 ∧
    (pf_ppm_activate_req netC5 0 true).2.ar.err_cls = PnetErrCls.ppm ∧
    (pf_ppm_activate_req netC5 0 true).2.ar.err_code = PnetErrCode.ppmInvalidState ∧
    (pf_ppm_activate_req netC5 0 true).2.ar.iocrs = netC5.ar.iocrs :=
  ppm_activate_in_run netC5 0 true (by decide)

/-! ## Claim C9: close is unconditional -/

theorem getD_set_self (l : List PfIocr) (i : Nat) (x : PfIocr) (h : i < l.length) :
    (l.set i x).getD i iocrDefault = x := by
  rw [List.getD_eq_getElem?_getD, List.getElem?_set_self (by simpa using h)]
  rfl

/-- Claim C9: `pf_ppm_close_req` performs no state check: it always
returns 0, sets `ci_running = false` and the state to `WAIT_START`, frees
the send buffer, and decrements the process-wide instance counter (with
`uint32_t` wraparound when the counter was 0, as for an instance that was
never activated). -/
theorem ppm_close_unconditional (net : PnetSt) (crep : Nat)
    (h : crep < net.ar.iocrs.length) :
    (pf_ppm_close_req net crep).1 = 0 ∧
    ((pf_ppm_close_req net crep).2.ar.iocrs.getD crep iocrDefault).ppm.ci_running = false ∧
    ((pf_ppm_close_req net crep).2.ar.iocrs.getD crep iocrDefault).ppm.state =
      PfPpmState.wStart ∧
    ((pf_ppm_close_req net crep).2.ar.iocrs.getD crep iocrDefault).ppm.send_buffer_allocated =
      false ∧
    (pf_ppm_close_req net crep).2.ppm_instance_cnt =
      u32 (net.ppm_instance_cnt + 4294967295) := by
  unfold pf_ppm_close_req
  refine ⟨rfl, ?_, ?_, ?_, rfl⟩
  · rw [getD_set_self _ _ _ h]; split <;> split <;> rfl
  · rw [getD_set_self _ _ _ h]; split <;> split <;> rfl
  · rw [getD_set_self _ _ _ h]; split <;> split <;> rfl

/-- A state with one never-activated IOCR (counter 0). -/
def netC9 : PnetSt := pf_ppm_init { ar := { iocrs := [{}] } }

/-- Witness for C9: closing the never-activated instance of `netC9`. -/
theorem ppm_close_unconditional_witness :
    (pf_ppm_close_req netC9 0).1 = 0 ∧
    ((pf_ppm_close_req netC9 0).2.ar.iocrs.getD 0 iocrDefault).ppm.ci_running = false ∧
    ((pf_ppm_close_req netC9 0).2.ar.iocrs.getD 0 iocrDefault).ppm.state =
      PfPpmState.wStart ∧
    ((pf_ppm_close_req netC9 0).2.ar.iocrs.getD 0 iocrDefault).ppm.send_buffer_allocated =
      false ∧
    (pf_ppm_close_req netC9 0).2.ppm_instance_cnt =
      u32 (netC9.ppm_instance_cnt + 4294967295) :=
  ppm_close_unconditional netC9 0 (by decide)

/-! ## Claim C4: existence of the buffer mutex along lifecycle sequences -/

/-- The PPM lifecycle operations of claim C4. `timerOk` is the
timer-creation environment of the activate call. -/
inductive PpmOp where
  | activate (crep : Nat) (timerOk : Bool)
  | close (crep : Nat)
deriving DecidableEq, Repr

/-- One lifecycle call. -/
def ppmExec (net : PnetSt) : PpmOp → PnetSt
  | .activate crep timerOk => (pf_ppm_activate_req net crep timerOk).2
  | .close crep => (pf_ppm_close_req net crep).2

/-- A sequence of lifecycle calls. -/
def ppmRun : PnetSt → List PpmOp → PnetSt
  | net, [] => net
  | net, op :: ops => ppmRun (ppmExec net op) ops

/-- Counter safety of one call: a close must not underflow the 32-bit
instance counter and an activate must not overflow it (every activate
counts, including rejected ones, because the counter is incremented
before the state check). -/
def ppmOpSafe (net : PnetSt) : PpmOp → Bool
  | .activate _ _ => decide (net.ppm_instance_cnt + 1 < 4294967296)
  | .close _ => decide (0 < net.ppm_instance_cnt)

/-- Counter safety of a call sequence. -/
def ppmOpsSafe : PnetSt → List PpmOp → Bool
  | _, [] => true
  | net, op :: ops => ppmOpSafe net op && ppmOpsSafe (ppmExec net op) ops

/-- The number of PPM instances whose state is RUN. -/
def activePpmInstances (net : PnetSt) : Nat :=
  (net.ar.iocrs.filter fun iocr => decide (iocr.ppm.state = PfPpmState.run)).length

/-- `pf_ppm_activate_req` always increments the instance counter and
creates the mutex on the observed 0 to 1 transition, before any state
check. -/
theorem activate_cnt_lock (net : PnetSt) (crep : Nat) (tk : Bool) :
    (pf_ppm_activate_req net crep tk).2.ppm_instance_cnt = u32 (net.ppm_instance_cnt + 1) ∧
    (pf_ppm_activate_req net crep tk).2.ppm_buf_lock =
      (if net.ppm_instance_cnt = 0 then true else net.ppm_buf_lock) := by
  constructor
  · simp only [pf_ppm_activate_req]
    split
    · rfl
    · split <;> rfl
  · simp only [pf_ppm_activate_req]
    split
    · rfl
    · split <;> rfl

/-- `pf_ppm_close_req` always decrements the instance counter (with 32-bit
wraparound) and destroys the mutex on the observed 1 to 0 transition. -/
theorem close_cnt_lock (net : PnetSt) (crep : Nat) :
    (pf_ppm_close_req net crep).2.ppm_instance_cnt =
      u32 (net.ppm_instance_cnt + 4294967295) ∧
    (pf_ppm_close_req net crep).2.ppm_buf_lock =
      (if net.ppm_instance_cnt = 1 then false else net.ppm_buf_lock) := by
  constructor
  · simp only [pf_ppm_close_req]
  · simp only [pf_ppm_close_req]

/-- A small (inactive) IOCR. -/
def iocrC4 : PfIocr where
  param :=
    { c_sdu_length := 4
      send_clock_factor := 32
      reduction_ratio := 1 }
  in_length := 4

/-- A fresh state with one inactive IOCR. -/
def netC4 : PnetSt :=
  pf_ppm_init { ar := { iocrs := [iocrC4] } }

/-- Claim C4 as stated is false: after activate, a second (rejected)
activate and a close, no PPM instance is active but the mutex still
exists (the rejected activate left the counter at 1). -/
theorem ppm_lock_counterexample :
    ¬ ((ppmRun netC4 [.activate 0 true, .activate 0 true, .close 0]).ppm_buf_lock = true ↔
        0 < activePpmInstances
          (ppmRun netC4 [.activate 0 true, .activate 0 true, .close 0])) := by
  decide

/-- Claim C4 amended: along every counter-safe sequence of activate and
close calls (counting rejected activates, which still increment the
counter), the mutex `ppm_buf_lock` exists if and only if
`ppm_instance_cnt > 0`. The equivalence with "some PPM instance is
active" does not hold, as rejected activates inflate the counter. -/
theorem ppm_lock_iff_count (ops : List PpmOp) (net : PnetSt)
    (hinv : net.ppm_buf_lock = decide (0 < net.ppm_instance_cnt))
    (hlt : net.ppm_instance_cnt < 4294967296)
    (hsafe : ppmOpsSafe net ops = true) :
    (ppmRun net ops).ppm_buf_lock = decide (0 < (ppmRun net ops).ppm_instance_cnt) := by
  induction ops generalizing net with
  | nil => exact hinv
  | cons op ops ih =>
    rw [ppmRun]
    rw [ppmOpsSafe, Bool.and_eq_true] at hsafe

    have hstep : (ppmExec net op).ppm_buf_lock =
        decide (0 < (ppmExec net op).ppm_instance_cnt) ∧
        (ppmExec net op).ppm_instance_cnt < 4294967296 := by
      cases op with
      | activate crep tk =>
        have hc := activate_cnt_lock net crep tk
        have hs : net.ppm_instance_cnt + 1 < 4294967296 := by
          have := hsafe.1
          simp [ppmOpSafe] at this
          exact this
        rw [ppmExec, hc.1, hc.2]
        rw [show u32 (net.ppm_instance_cnt + 1) = net.ppm_instance_cnt + 1 from
          Nat.mod_eq_of_lt hs]
        constructor
        · split
          · simp
          · rw [hinv]; simp; omega
        · omega
      | close crep =>
        have hc := close_cnt_lock net crep
        have hs : 0 < net.ppm_instance_cnt := by
          have := hsafe.1
          simp [ppmOpSafe] at this
          exact this
        rw [ppmExec, hc.1, hc.2]
        rw [show u32 (net.ppm_instance_cnt + 4294967295) = net.ppm_instance_cnt - 1 by
          unfold u32; omega]
        constructor
        · split
          · simp; omega
          · rw [hinv]; simp; omega
        · omega
    exact ih _ hstep.1 hstep.2 hsafe.2

/-- Witness for the amended C4 on a concrete safe sequence containing a
rejected activate. -/
theorem ppm_lock_iff_count_witness :
    (ppmRun netC4 [.activate 0 true, .activate 0 true, .close 0]).ppm_buf_lock =
      decide (0 <
        (ppmRun netC4 [.activate 0 true, .activate 0 true, .close 0]).ppm_instance_cnt) :=
  ppm_lock_iff_count [.activate 0 true, .activate 0 true, .close 0] netC4
    (by decide) (by decide) (by decide)

/-! ## Claim C10: the data-status bit setters -/

theorem testBit_and_mask (ds m j : Nat) (hds : ds < 256)
    (hj : m.testBit j = true ∨ 8 ≤ j) :
    (ds &&& m).testBit j = ds.testBit j := by
  rcases hj with hj | hj
  · rw [Nat.testBit_land, hj, Bool.and_true]
  · have h2 : (256 : Nat) ≤ 2 ^ j := by
      calc (256 : Nat) = 2 ^ 8 := rfl
      _ ≤ 2 ^ j := Nat.pow_le_pow_right (by omega) hj
    have ha : ds &&& m ≤ ds := Nat.and_le_left
    rw [Nat.testBit_lt_two_pow (show ds &&& m < 2 ^ j by omega),
      Nat.testBit_lt_two_pow (show ds < 2 ^ j by omega)]

theorem testBit_or_two_pow (ds k j : Nat) (hj : j ≠ k) :
    (ds ||| 2 ^ k).testBit j = ds.testBit j := by
  rw [Nat.testBit_lor, Nat.testBit_two_pow_of_ne (fun h => hj h.symm), Bool.or_false]

/-- Claim C10: each of the three data-status setters returns 0 and changes
at most its own bit (bit 0 for STATE, bit 1 for REDUNDANCY, bit 4 for
PROVIDER_STATE) of the addressed IOCR's `data_status`, setting that bit to
the given flag, while every other bit, every other PPM field and every
other IOCR stay unchanged. `hds` is the `uint8_t` range of the stored
data status. -/
theorem ppm_set_data_status_bits (ar : PfAr) (crep : Nat) (b : Bool)
    (hc : crep < ar.iocrs.length)
    (hds : (ar.iocrs.getD crep iocrDefault).ppm.data_status < 256) :
    (pf_ppm_set_data_status_state ar crep b).1 = 0 ∧
    (pf_ppm_set_data_status_redundancy ar crep b).1 = 0 ∧
    (pf_ppm_set_data_status_provider ar crep b).1 = 0 ∧
    (∀ j, j ≠ 0 →
      (((pf_ppm_set_data_status_state ar crep b).2.iocrs.getD crep
          iocrDefault).ppm.data_status).testBit j =
        ((ar.iocrs.getD crep iocrDefault).ppm.data_status).testBit j) ∧
    (((pf_ppm_set_data_status_state ar crep b).2.iocrs.getD crep
        iocrDefault).ppm.data_status).testBit 0 = b ∧
    (∀ j, j ≠ 1 →
      (((pf_ppm_set_data_status_redundancy ar crep b).2.iocrs.getD crep
          iocrDefault).ppm.data_status).testBit j =
        ((ar.iocrs.getD crep iocrDefault).ppm.data_status).testBit j) ∧
    (((pf_ppm_set_data_status_redundancy ar crep b).2.iocrs.getD crep
        iocrDefault).ppm.data_status).testBit 1 = b ∧
    (∀ j, j ≠ 4 →
      (((pf_ppm_set_data_status_provider ar crep b).2.iocrs.getD crep
          iocrDefault).ppm.data_status).testBit j =
        ((ar.iocrs.getD crep iocrDefault).ppm.data_status).testBit j) ∧
    (((pf_ppm_set_data_status_provider ar crep b).2.iocrs.getD crep
        iocrDefault).ppm.data_status).testBit 4 = b ∧
    ({ ((pf_ppm_set_data_status_state ar crep b).2.iocrs.getD crep iocrDefault).ppm with
        data_status := (ar.iocrs.getD crep iocrDefault).ppm.data_status } =
      (ar.iocrs.getD crep iocrDefault).ppm) ∧
    ({ ((pf_ppm_set_data_status_redundancy ar crep b).2.iocrs.getD crep iocrDefault).ppm with
        data_status := (ar.iocrs.getD crep iocrDefault).ppm.data_status } =
      (ar.iocrs.getD crep iocrDefault).ppm) ∧
    ({ ((pf_ppm_set_data_status_provider ar crep b).2.iocrs.getD crep iocrDefault).ppm with
        data_status := (ar.iocrs.getD crep iocrDefault).ppm.data_status } =
      (ar.iocrs.getD crep iocrDefault).ppm) ∧
    (∀ j, j ≠ crep →
      (pf_ppm_set_data_status_state ar crep b).2.iocrs[j]? = ar.iocrs[j]? ∧
      (pf_ppm_set_data_status_redundancy ar crep b).2.iocrs[j]? = ar.iocrs[j]? ∧
      (pf_ppm_set_data_status_provider ar crep b).2.iocrs[j]? = ar.iocrs[j]?) := by
  unfold pf_ppm_set_data_status_state pf_ppm_set_data_status_redundancy
    pf_ppm_set_data_status_provider
  rw [getD_set_self _ _ _ hc, getD_set_self _ _ _ hc, getD_set_self _ _ _ hc]
  refine ⟨rfl, rfl, rfl, ?_, ?_, ?_, ?_, ?_, ?_, ?_, ?_, ?_, ?_⟩
  · intro j hj
    cases b with
    | true => exact testBit_or_two_pow _ 0 j hj
    | false =>
      refine testBit_and_mask _ 254 j hds ?_
      rcases Nat.lt_or_ge j 8 with h8 | h8
      · left; interval_cases j <;> first | (exact absurd rfl hj) | decide
      · right; exact h8
  · cases b with
    | true => simp [Nat.testBit_lor, show Nat.testBit 1 0 = true by decide]
    | false => simp [Nat.testBit_land, show Nat.testBit 254 0 = false by decide]
  · intro j hj
    cases b with
    | true => exact testBit_or_two_pow _ 1 j hj
    | false =>
      refine testBit_and_mask _ 253 j hds ?_
      rcases Nat.lt_or_ge j 8 with h8 | h8
      · left; interval_cases j <;> first | (exact absurd rfl hj) | decide
      · right; exact h8
  · cases b with
    | true => simp [Nat.testBit_lor, show Nat.testBit 2 1 = true by decide]
    | false => simp [Nat.testBit_land, show Nat.testBit 253 1 = false by decide]
  · intro j hj
    cases b with
    | true => exact testBit_or_two_pow _ 4 j hj
    | false =>
      refine testBit_and_mask _ 239 j hds ?_
      rcases Nat.lt_or_ge j 8 with h8 | h8
      · left; interval_cases j <;> first | (exact absurd rfl hj) | decide
      · right; exact h8
  · cases b with
    | true => simp [Nat.testBit_lor, show Nat.testBit 16 4 = true by decide]
    | false => simp [Nat.testBit_land, show Nat.testBit 239 4 = false by decide]
  · cases b <;> rfl
  · cases b <;> rfl
  · cases b <;> rfl
  · intro j hj
    refine ⟨?_, ?_, ?_⟩ <;> exact List.getElem?_set_ne (fun h => hj h.symm)

/-- An AR with one IOCR carrying the default data status `0x25`. -/
def arC10 : PfAr :=
  { iocrs := [{ ppm := { data_status := 37 } }] }

/-- Witness for C10 on `arC10`, setting the flag to `false`. -/
theorem ppm_set_data_status_bits_witness :
    (pf_ppm_set_data_status_state arC10 0 false).1 = 0 ∧
    (pf_ppm_set_data_status_redundancy arC10 0 false).1 = 0 ∧
    (pf_ppm_set_data_status_provider arC10 0 false).1 = 0 ∧
    (∀ j, j ≠ 0 →
      (((pf_ppm_set_data_status_state arC10 0 false).2.iocrs.getD 0
          iocrDefault).ppm.data_status).testBit j =
        ((arC10.iocrs.getD 0 iocrDefault).ppm.data_status).testBit j) ∧
    (((pf_ppm_set_data_status_state arC10 0 false).2.iocrs.getD 0
        iocrDefault).ppm.data_status).testBit 0 = false ∧
    (∀ j, j ≠ 1 →
      (((pf_ppm_set_data_status_redundancy arC10 0 false).2.iocrs.getD 0
          iocrDefault).ppm.data_status).testBit j =
        ((arC10.iocrs.getD 0 iocrDefault).ppm.data_status).testBit j) ∧
    (((pf_ppm_set_data_status_redundancy arC10 0 false).2.iocrs.getD 0
        iocrDefault).ppm.data_status).testBit 1 = false ∧
    (∀ j, j ≠ 4 →
      (((pf_ppm_set_data_status_provider arC10 0 false).2.iocrs.getD 0
          iocrDefault).ppm.data_status).testBit j =
        ((arC10.iocrs.getD 0 iocrDefault).ppm.data_status).testBit j) ∧
    (((pf_ppm_set_data_status_provider arC10 0 false).2.iocrs.getD 0
        iocrDefault).ppm.data_status).testBit 4 = false ∧
    ({ ((pf_ppm_set_data_status_state arC10 0 false).2.iocrs.getD 0 iocrDefault).ppm with
        data_status := (arC10.iocrs.getD 0 iocrDefault).ppm.data_status } =
      (arC10.iocrs.getD 0 iocrDefault).ppm) ∧
    ({ ((pf_ppm_set_data_status_redundancy arC10 0 false).2.iocrs.getD 0 iocrDefault).ppm with
        data_status := (arC10.iocrs.getD 0 iocrDefault).ppm.data_status } =
      (arC10.iocrs.getD 0 iocrDefault).ppm) ∧
    ({ ((pf_ppm_set_data_status_provider arC10 0 false).2.iocrs.getD 0 iocrDefault).ppm with
        data_status := (arC10.iocrs.getD 0 iocrDefault).ppm.data_status } =
      (arC10.iocrs.getD 0 iocrDefault).ppm) ∧
    (∀ j, j ≠ 0 →
      (pf_ppm_set_data_status_state arC10 0 false).2.iocrs[j]? = arC10.iocrs[j]? ∧
      (pf_ppm_set_data_status_redundancy arC10 0 false).2.iocrs[j]? = arC10.iocrs[j]? ∧
      (pf_ppm_set_data_status_provider arC10 0 false).2.iocrs[j]? = arC10.iocrs[j]?) :=
  ppm_set_data_status_bits arC10 0 false (by decide) (by decide)

/-! ## Claim C6: the TTL round trip -/

/-- A pristine LLDP state. -/
def lldpNet0 : LldpNet := {}

/-- Claim C6 (code-bug evidence): encoding TTL = 256 with
`lldp_add_ttl_tlv` (16-bit big-endian on the wire) and decoding the frame
with `pf_lldp_recv` stores TTL = 0 in the peer record — the receive path
reads only the low byte `pData[1]`, so the round trip fails for every
TTL of 256 or more. -/
theorem lldp_ttl_roundtrip_bug :
    (pf_lldp_recv lldpNet0 (fun _ => false)
        (lldp_add_ttl_tlv 256 ++ pf_lldp_tlv_header 0 0)).peer.TTL = 0 ∧
      (256 : Nat) ≠ 0 := by decide

/-! ## Claim C8: the remote-mismatch alarm path -/

/-- A state with one in-use AR whose permanent and temporary alias agree
(the DISAPPEARS case). -/
def lldpNetC8 : LldpNet :=
  { tempAlias := [112, 49], permAlias := [112, 49], arsInUse := [true] }

/-- Claim C8 as stated is false: in the DISAPPEARS case (aliases equal),
even when `pf_diag_update` fails, no `pf_diag_add` fallback is invoked —
the emitted calls are exactly update then notification. -/
theorem lldp_mismatch_alarm_counterexample :
    (pf_lldp_send_remote_mismatch_alarm lldpNetC8 (fun _ => false)).2 =
      [.diagUpdate 0 ⟨false, ⟨false, false, false⟩⟩,
       .portChangeNotification 0 ⟨false, ⟨false, false, false⟩⟩] ∧
    ((pf_lldp_send_remote_mismatch_alarm lldpNetC8 (fun _ => false)).2.any
      PfLldpAlarmEvent.isDiagAdd) = false := by decide

theorem mismatch_events_arIndex (m u : Bool) (ix : Nat) (e : PfLldpAlarmEvent)
    (he : e ∈ pf_lldp_mismatch_events m u ix) : e.arIndex = ix := by
  cases m with
  | false =>
    simp [pf_lldp_mismatch_events] at he
    rcases he with rfl | rfl <;> rfl
  | true =>
    cases u with
    | true =>
      simp [pf_lldp_mismatch_events] at he
      rcases he with rfl | rfl <;> rfl
    | false =>
      simp [pf_lldp_mismatch_events] at he
      rcases he with rfl | rfl | rfl <;> rfl

theorem mismatch_loop_mem_of (m : Bool) (updOk : Nat → Bool) (l : List Bool)
    (start j : Nat) (hj : j < l.length) (hin : l.getD j false = true)
    (e : PfLldpAlarmEvent)
    (he : e ∈ pf_lldp_mismatch_events m (updOk (start + j)) (start + j)) :
    e ∈ pf_lldp_mismatch_loop m updOk start l := by
  induction l generalizing start j with
  | nil => simp at hj
  | cons x xs ih =>
    rw [pf_lldp_mismatch_loop]
    rcases j with _ | j
    · apply List.mem_append_left
      simp only [List.getD_cons_zero] at hin
      rw [hin]
      simpa using he
    · apply List.mem_append_right
      have hadd : start + (j + 1) = (start + 1) + j := by omega
      rw [hadd] at he
      exact ih (start + 1) j (by simpa using hj) (by simpa using hin) he

theorem mismatch_loop_mem_inv (m : Bool) (updOk : Nat → Bool) (l : List Bool)
    (start : Nat) (e : PfLldpAlarmEvent)
    (he : e ∈ pf_lldp_mismatch_loop m updOk start l) :
    ∃ j, j < l.length ∧ l.getD j false = true ∧
      e ∈ pf_lldp_mismatch_events m (updOk (start + j)) (start + j) := by
  induction l generalizing start with
  | nil => simp [pf_lldp_mismatch_loop] at he
  | cons x xs ih =>
    rw [pf_lldp_mismatch_loop] at he
    rcases List.mem_append.mp he with h | h
    · cases hx : x with
      | false => rw [hx] at h; simp at h
      | true =>
        rw [hx] at h
        simp only [if_true] at h
        exact ⟨0, by simp, by simp [hx], by simpa using h⟩
    · obtain ⟨j, hj, hin, hmem⟩ := ih (start + 1) h
      refine ⟨j + 1, by simpa using hj, by simpa using hin, ?_⟩
      have hadd : (start + 1) + j = start + (j + 1) := by omega
      rw [hadd] at hmem
      exact hmem

theorem diagAdd_mem_mismatch_events (m u : Bool) (ix : Nat) (item : PfDiagItem) :
    (PfLldpAlarmEvent.diagAdd ix item ∈ pf_lldp_mismatch_events m u ix) ↔
      (m = true ∧ u = false ∧ item = ⟨true, ⟨true, true, true⟩⟩) := by
  cases m <;> cases u <;> simp [pf_lldp_mismatch_events]

/-- Claim C8 amended: for every in-use AR, the diagnosis item carries
APPEARS and true channel/submodule/AR bits exactly when the temporary and
permanent alias differ, and DISAPPEARS with false bits otherwise;
`pf_diag_update` is attempted and the port change notification sent in
both cases, but the `pf_diag_add` fallback on a failed update exists only
in the APPEARS (mismatch) case. -/
theorem lldp_mismatch_alarm_amended (net : LldpNet) (updOk : Nat → Bool) (ix : Nat)
    (hix : ix < net.arsInUse.length) (hin : net.arsInUse.getD ix false = true) :
    let m : Bool := decide (net.permAlias ≠ net.tempAlias)
    let item : PfDiagItem :=
      if m then ⟨true, ⟨true, true, true⟩⟩ else ⟨false, ⟨false, false, false⟩⟩
    let evs := (pf_lldp_send_remote_mismatch_alarm net updOk).2
    PfLldpAlarmEvent.diagUpdate ix item ∈ evs ∧
    PfLldpAlarmEvent.portChangeNotification ix item ∈ evs ∧
    (PfLldpAlarmEvent.diagAdd ix item ∈ evs ↔ (m = true ∧ updOk ix = false)) := by
  intro m item evs
  have hevs : evs = pf_lldp_mismatch_loop m updOk 0 net.arsInUse := by
    show (pf_lldp_send_remote_mismatch_alarm net updOk).2 = _
    unfold pf_lldp_send_remote_mismatch_alarm
    split <;> rfl
  have hupd : PfLldpAlarmEvent.diagUpdate ix item ∈
      pf_lldp_mismatch_events m (updOk ix) ix := by
    show PfLldpAlarmEvent.diagUpdate ix item ∈ _
    cases hm : m <;> cases hu : updOk ix <;>
      simp [pf_lldp_mismatch_events, item, hm]
  have hnot : PfLldpAlarmEvent.portChangeNotification ix item ∈
      pf_lldp_mismatch_events m (updOk ix) ix := by
    cases hm : m <;> cases hu : updOk ix <;>
      simp [pf_lldp_mismatch_events, item, hm]
  refine ⟨?_, ?_, ?_, ?_⟩
  · rw [hevs]
    exact mismatch_loop_mem_of m updOk net.arsInUse 0 ix hix hin _ (by simpa using hupd)
  · rw [hevs]
    exact mismatch_loop_mem_of m updOk net.arsInUse 0 ix hix hin _ (by simpa using hnot)
  · intro hmem
    rw [hevs] at hmem
    obtain ⟨j, hj, hinj, hmemj⟩ := mismatch_loop_mem_inv m updOk net.arsInUse 0 _ hmem
    have hix2 : ix = 0 + j := by
      have := mismatch_events_arIndex m (updOk (0 + j)) (0 + j) _ hmemj
      simpa [PfLldpAlarmEvent.arIndex] using this
    rw [← hix2] at hmemj
    have := (diagAdd_mem_mismatch_events m (updOk ix) ix item).mp hmemj
    exact ⟨this.1, this.2.1⟩
  · intro ⟨hm, hu⟩
    rw [hevs]
    refine mismatch_loop_mem_of m updOk net.arsInUse 0 ix hix hin _ ?_
    rw [Nat.zero_add]
    refine (diagAdd_mem_mismatch_events m (updOk ix) ix item).mpr ⟨hm, hu, ?_⟩
    show item = _
    simp [item, hm]

/-- A state with one in-use AR and differing aliases (the APPEARS case). -/
def lldpNetC8b : LldpNet :=
  { tempAlias := [97], permAlias := [98], arsInUse := [true] }

/-- Witness for the amended C8 on `lldpNetC8b` with a failing update. -/
theorem lldp_mismatch_alarm_amended_witness :
    (let m : Bool := decide (lldpNetC8b.permAlias ≠ lldpNetC8b.tempAlias)
     let item : PfDiagItem :=
       if m then ⟨true, ⟨true, true, true⟩⟩ else ⟨false, ⟨false, false, false⟩⟩
     let evs := (pf_lldp_send_remote_mismatch_alarm lldpNetC8b (fun _ => false)).2
     PfLldpAlarmEvent.diagUpdate 0 item ∈ evs ∧
     PfLldpAlarmEvent.portChangeNotification 0 item ∈ evs ∧
     (PfLldpAlarmEvent.diagAdd 0 item ∈ evs ↔
       (m = true ∧ (fun _ : Nat => false) 0 = false))) :=
  lldp_mismatch_alarm_amended lldpNetC8b (fun _ => false) 0 (by decide) (by decide)

/-! ## Claim C7: the alias derived from Port ID and Chassis ID -/

/-- The alarm path never changes the temporary alias. -/
theorem mismatch_alarm_tempAlias (n : LldpNet) (u : Nat → Bool) :
    (pf_lldp_send_remote_mismatch_alarm n u).1.tempAlias = n.tempAlias := by
  unfold pf_lldp_send_remote_mismatch_alarm
  split <;> rfl

/-- One step of the TLV walk over a well-formed non-end TLV. -/
theorem recv_go_step (updOk : Nat → Bool) (fuel : Nat) (net : LldpNet)
    (ty ln : Nat) (payload rest : List Nat)
    (hty1 : 0 < ty) (hty2 : ty < 128) (hln : ln < 512) (hpl : payload.length = ln) :
    pf_lldp_recv_go updOk (fuel + 1) net
        (pf_lldp_tlv_header ty ln ++ payload ++ rest) =
      pf_lldp_recv_go updOk fuel
        (lldpHandleTlv net updOk ty ln (payload ++ rest)) rest := by
  have hmod : ln % 512 = ln := Nat.mod_eq_of_lt hln
  have hv : ty * 512 + ln < 65536 := by omega
  have hframe : pf_lldp_tlv_header ty ln ++ payload ++ rest =
      (ty * 512 + ln) / 256 :: ((ty * 512 + ln) % 256 :: (payload ++ rest)) := by
    simp [pf_lldp_tlv_header, be16, hmod, Nat.mod_eq_of_lt hv]
  rw [hframe]
  simp only [pf_lldp_recv_go, List.length_cons, List.getD_cons_zero, List.getD_cons_succ]
  rw [if_neg (by omega), Nat.div_add_mod]
  rw [show (ty * 512 + ln) / 512 = ty by omega, show (ty * 512 + ln) % 512 = ln by omega,
    if_neg (by omega)]
  rw [show ((ty * 512 + ln) / 256 :: ((ty * 512 + ln) % 256 :: (payload ++ rest))).drop 2 =
      payload ++ rest from rfl]
  rw [List.drop_left' hpl]

/-- The walk stops at the end TLV. -/
theorem recv_go_end (updOk : Nat → Bool) (fuel : Nat) (net : LldpNet) :
    pf_lldp_recv_go updOk (fuel + 1) net [0, 0] = net := rfl

/-- An LLDP frame carrying a Chassis ID TLV (locally-assigned subtype 7),
then a Port ID TLV (subtype 7), then the end TLV. -/
def lldpChassisPortFrame (chassis port : List Nat) : List Nat :=
  pf_lldp_tlv_header 1 (1 + chassis.length) ++ (7 :: chassis) ++
    (pf_lldp_tlv_header 2 (1 + port.length) ++ (7 :: port) ++ pf_lldp_tlv_header 0 0)

/-- Claim C7: when the Chassis ID TLV is decoded before the Port ID TLV,
the alias computed at the Port ID TLV (observable as the stored temporary
alias) equals the Port ID when it contains a dot (byte 46), and the
concatenation PortID ++ "." ++ ChassisID otherwise. The hypotheses keep
the ids NUL-free (so the C string operations coincide with list
operations) and inside the 250-byte alias buffer. -/
theorem lldp_alias_derivation (net : LldpNet) (updOk : Nat → Bool)
    (chassis port : List Nat)
    (hc0 : 0 ∉ chassis) (hp0 : 0 ∉ port)
    (hlen : port.length + chassis.length ≤ 247) :
    (pf_lldp_recv net updOk (lldpChassisPortFrame chassis port)).tempAlias =
      (if 46 ∈ port then port else port ++ 46 :: chassis) := by
  have hflen : (lldpChassisPortFrame chassis port).length =
      (7 + chassis.length + port.length) + 1 := by
    simp [lldpChassisPortFrame, pf_lldp_tlv_header, be16]
    omega
  rw [pf_lldp_recv, hflen, lldpChassisPortFrame]
  rw [recv_go_step updOk _ net 1 (1 + chassis.length) (7 :: chassis) _
    (by omega) (by omega) (by omega) (by simp only [List.length_cons]; omega)]
  have hnet1 : lldpHandleTlv net updOk 1 (1 + chassis.length)
      ((7 :: chassis) ++ (pf_lldp_tlv_header 2 (1 + port.length) ++ (7 :: port) ++
        pf_lldp_tlv_header 0 0)) =
      { net with peer := { net.peer with
          PeerChassisIDLen := chassis.length
          PeerChassisID := chassis } } := by
    simp [lldpHandleTlv, List.take_left']
  rw [hnet1]
  rw [show 7 + chassis.length + port.length = (6 + chassis.length + port.length) + 1
    by omega]
  rw [recv_go_step updOk _ _ 2 (1 + port.length) (7 :: port) _
    (by omega) (by omega) (by omega) (by simp only [List.length_cons]; omega)]
  rw [show pf_lldp_tlv_header 0 0 = [0, 0] from rfl]
  rw [show 6 + chassis.length + port.length = (5 + chassis.length + port.length) + 1
    by omega]
  rw [recv_go_end]
  simp only [lldpHandleTlv]
  rw [if_neg (show ¬ (2 : Nat) = 1 by omega)]
  rw [if_pos trivial]
  rw [show List.drop 1 ((7 :: port) ++ [0, 0]) = port ++ [0, 0] from rfl]
  rw [show 1 + port.length - 1 = port.length by omega]
  rw [List.take_left' rfl]
  split <;> split
  · rw [mismatch_alarm_tempAlias]
  · rename_i hsame
    rw [not_ne_iff] at hsame
    exact hsame.symm
  · rw [mismatch_alarm_tempAlias]
  · rename_i hsame
    rw [not_ne_iff] at hsame
    exact hsame.symm

/-- Witness for C7: Port ID "port-003" (no dot) and Chassis ID "dut"
yield the alias "port-003.dut". -/
theorem lldp_alias_derivation_witness :
    (pf_lldp_recv lldpNet0 (fun _ => false)
        (lldpChassisPortFrame [100, 117, 116]
          [112, 111, 114, 116, 45, 48, 48, 51])).tempAlias =
      (if 46 ∈ [112, 111, 114, 116, 45, 48, 48, 51] then
        [112, 111, 114, 116, 45, 48, 48, 51]
       else [112, 111, 114, 116, 45, 48, 48, 51] ++ 46 :: [100, 117, 116]) :=
  lldp_alias_derivation lldpNet0 (fun _ => false) [100, 117, 116]
    [112, 111, 114, 116, 45, 48, 48, 51] (by decide) (by decide) (by decide)

end PNet
